import Mathlib

/-!
Verification of the LS-8 CPU emulator (`src/project/ls8/cpu.js`).

The machine state is a shallow embedding of the `CPU` class: eight general
registers (`reg`, indexed 0–7, with `reg 6` doubling as Interrupt Status and
`reg 7` as Stack Pointer), the special registers `PC` and `FL`, the RAM
(`mem`), a `running` flag standing for whether the clock interval is live,
and an `output` trace for `console.log` events that carry program output.
JavaScript numbers behave as exact integers on every path this code takes,
so register and memory cells are modelled as `Int` and no 8-bit masking is
applied anywhere (matching the source, which never masks).

RAM is an external collaborator exposing `read`/`write`; it is modelled as a
total function `Int → Int`.  The debug `console.log` dumps inside
`interrupt_general` only read state, so they have no counterpart here; the
`output` trace records the PRN/PRA writes and the invalid-instruction report,
which are the observable logs.
-/

namespace LS8

/-- One observable `console.log` event: `PRN` prints a register as an
integer, `PRA` prints it as a character code, and the invalid-instruction
handler reports the offending opcode byte. -/
inductive Output where
  | num (v : Int)
  | chr (v : Int)
  | invalid (b : Int)
deriving DecidableEq, Repr

/-- The CPU state: `this.reg` (general registers, a total map of which
indices 0–7 are meaningful), `this.reg.PC`, `this.reg.FL`, `this.ram`,
whether the clock interval is still scheduled, and the output trace. -/
structure Machine where
  reg : Int → Int
  PC : Int
  FL : Int
  mem : Int → Int
  running : Bool
  output : List Output

/-- Write general register `i` (JS `this.reg[i] = v`). -/
def setReg (s : Machine) (i v : Int) : Machine :=
  { s with reg := fun j => if j = i then v else s.reg j }

/-- Write RAM address `a` (JS `this.ram.write(a, v)`). -/
def writeMem (s : Machine) (a v : Int) : Machine :=
  { s with mem := fun b => if b = a then v else s.mem b }

/-! Opcode constants, as declared in `tick`. -/

def ADD : Int := 0b10101000
def CALL : Int := 0b01001000
def CMP : Int := 0b10100000
def HLT : Int := 0b00000001
def JEQ : Int := 0b01010001
def JGT : Int := 0b01010100
def JLT : Int := 0b01010011
def JMP : Int := 0b01010000
def JNE : Int := 0b01010010
def LDI : Int := 0b10011001
def MUL : Int := 0b10101010
def POP : Int := 0b01001100
def PRA : Int := 0b01000010
def PRN : Int := 0b01000011
def PUSH : Int := 0b01001101
def RET : Int := 0b00001001
def ST : Int := 0b10011010

/-- Source `const SP = 7` — the Stack Pointer lives in register 7. -/
def SP : Int := 7

/-- Source `const IS = 6` — the Interrupt Status lives in register 6. -/
def IS : Int := 6

/-- Semantics of JS `x >>> 6`: `ToUint32` (reduction mod 2^32, always non-negative)
followed by a logical right shift by 6. -/
def jsUshr6 (x : Int) : Int := (x % (2 : Int) ^ 32) / 64

/-- The ALU: `alu(op, regA, regB)`.  Only the `'MUL'` and `'ADD'` cases of
the switch exist; any other op falls through (JS would yield `undefined`,
an unreachable path since only ADD and MUL are wired to opcodes — modelled
as 0). -/
def alu (s : Machine) (op : String) (regA regB : Int) : Int :=
  if op = "MUL" then s.reg regA * s.reg regB
  else if op = "ADD" then s.reg regA + s.reg regB
  else 0

/-! The opcode handlers defined inside `tick`, in source order. -/

/-- Handler `handle_ADD`: `reg[registerA] = alu('ADD', registerA, registerB)`. -/
def handle_ADD (s : Machine) (registerA registerB : Int) : Machine :=
  setReg s registerA (alu s "ADD" registerA registerB)

/-- Helper `handle_PUSHval(value)`: `ram.write(--reg[SP], value)` — the decrement
of SP happens first, then the (already evaluated) value is written at the
new SP. -/
def handle_PUSHval (s : Machine) (value : Int) : Machine :=
  let s1 := setReg s SP (s.reg SP - 1)
  writeMem s1 (s1.reg SP) value

/-- Handler `handle_CALL`: push `PC + 2`, then `PC = reg[register]` (the register
is read after the push, which matters when `register = 7`). -/
def handle_CALL (s : Machine) (register : Int) : Machine :=
  let s1 := handle_PUSHval s (s.PC + 2)
  { s1 with PC := s1.reg register }

/-- Handler `handle_CMP`: a `switch (true)` that sets FL to exactly one of
1 (equal), 2 (greater), 4 (less); if no case matched FL would be left
alone (unreachable for integers). -/
def handle_CMP (s : Machine) (registerA registerB : Int) : Machine :=
  if s.reg registerA = s.reg registerB then { s with FL := 0b00000001 }
  else if s.reg registerA > s.reg registerB then { s with FL := 0b00000010 }
  else if s.reg registerA < s.reg registerB then { s with FL := 0b00000100 }
  else s

/-- Handler `handle_HLT`: `stopClock()` clears the clock interval. -/
def handle_HLT (s : Machine) : Machine := { s with running := false }

/-- Handler `handle_JMP`: `PC = reg[register]`. -/
def handle_JMP (s : Machine) (register : Int) : Machine :=
  { s with PC := s.reg register }

/-- Handler `handle_JEQ`: jump when `FL === 1`, else `PC += 2`. -/
def handle_JEQ (s : Machine) (register : Int) : Machine :=
  if s.FL = 0b00000001 then handle_JMP s register else { s with PC := s.PC + 2 }

/-- Handler `handle_JGT`: jump when `FL === 2`, else `PC += 2`. -/
def handle_JGT (s : Machine) (register : Int) : Machine :=
  if s.FL = 0b00000010 then handle_JMP s register else { s with PC := s.PC + 2 }

/-- Handler `handle_JLT`: jump when `FL === 4`, else `PC += 2`. -/
def handle_JLT (s : Machine) (register : Int) : Machine :=
  if s.FL = 0b00000100 then handle_JMP s register else { s with PC := s.PC + 2 }

/-- Handler `handle_JNE`: jump when `FL !== 1`, else `PC += 2`. -/
def handle_JNE (s : Machine) (register : Int) : Machine :=
  if s.FL ≠ 0b00000001 then handle_JMP s register else { s with PC := s.PC + 2 }

/-- Handler `handle_LDI`: `reg[register] = value`. -/
def handle_LDI (s : Machine) (register value : Int) : Machine :=
  setReg s register value

/-- Handler `handle_MUL`: `reg[registerA] = alu('MUL', registerA, registerB)`. -/
def handle_MUL (s : Machine) (registerA registerB : Int) : Machine :=
  setReg s registerA (alu s "MUL" registerA registerB)

/-- Helper `handle_POPval()`: returns `ram.read(reg[SP]++)` — read at the current
SP, then post-increment SP. -/
def handle_POPval (s : Machine) : Int × Machine :=
  (s.mem (s.reg SP), setReg s SP (s.reg SP + 1))

/-- Handler `handle_POP`: `reg[register] = handle_POPval()` — the assignment runs
after the SP increment, so for `register = 7` it overwrites the
incremented SP. -/
def handle_POP (s : Machine) (register : Int) : Machine :=
  let p := handle_POPval s
  setReg p.2 register p.1

/-- Handler `handle_PRA`: logs `String.fromCharCode(reg[register])`. -/
def handle_PRA (s : Machine) (register : Int) : Machine :=
  { s with output := Output.chr (s.reg register) :: s.output }

/-- Handler `handle_PRN`: logs `reg[register]`. -/
def handle_PRN (s : Machine) (register : Int) : Machine :=
  { s with output := Output.num (s.reg register) :: s.output }

/-- Handler `handle_PUSH`: `ram.write(--reg[SP], reg[register])` — SP is
decremented first, so for `register = 7` the value written is the already
decremented SP. -/
def handle_PUSH (s : Machine) (register : Int) : Machine :=
  let s1 := setReg s SP (s.reg SP - 1)
  writeMem s1 (s1.reg SP) (s1.reg register)

/-- Handler `handle_RET`: `PC = handle_POPval()`. -/
def handle_RET (s : Machine) : Machine :=
  let p := handle_POPval s
  { p.2 with PC := p.1 }

/-- Handler `handle_ST`: `ram.write(reg[registerA], reg[registerB])`. -/
def handle_ST (s : Machine) (registerA registerB : Int) : Machine :=
  writeMem s (s.reg registerA) (s.reg registerB)

/-- Handler `handle_invalid_instruction`: report the offending byte, then
`handle_HLT()`. -/
def handle_invalid_instruction (s : Machine) (instruction : Int) : Machine :=
  handle_HLT { s with output := Output.invalid instruction :: s.output }

/-- Routine `interrupt_general()`: clear IS to 0, push PC, push registers 0–7 in
ascending order (each push reads the register's current value, so the
pushed reg 6 is the already-cleared 0 and the pushed reg 7 is the SP after
the eight preceding decrements), then `PC = ram.read(0xF8)`.  The
surrounding debug RAM dumps only read state. -/
def interrupt_general (s : Machine) : Machine :=
  let s1 := setReg s IS 0
  let s2 := handle_PUSHval s1 s1.PC
  let s3 := List.foldl (fun st i => handle_PUSHval st (st.reg i)) s2
    [0, 1, 2, 3, 4, 5, 6, 7]
  { s3 with PC := s3.mem 0xF8 }

/-- The `branchTable` object: maps an opcode byte to its handler, applied
to `(operandA, operandB)`; each arrow function ignores the operands it
does not declare. -/
def branchTable (ir : Int) : Option (Machine → Int → Int → Machine) :=
  if ir = ADD then some (fun s a b => handle_ADD s a b)
  else if ir = CALL then some (fun s a _ => handle_CALL s a)
  else if ir = CMP then some (fun s a b => handle_CMP s a b)
  else if ir = HLT then some (fun s _ _ => handle_HLT s)
  else if ir = JEQ then some (fun s a _ => handle_JEQ s a)
  else if ir = JGT then some (fun s a _ => handle_JGT s a)
  else if ir = JLT then some (fun s a _ => handle_JLT s a)
  else if ir = JMP then some (fun s a _ => handle_JMP s a)
  else if ir = JNE then some (fun s a _ => handle_JNE s a)
  else if ir = LDI then some (fun s a b => handle_LDI s a b)
  else if ir = MUL then some (fun s a b => handle_MUL s a b)
  else if ir = POP then some (fun s a _ => handle_POP s a)
  else if ir = PRA then some (fun s a _ => handle_PRA s a)
  else if ir = PRN then some (fun s a _ => handle_PRN s a)
  else if ir = PUSH then some (fun s a _ => handle_PUSH s a)
  else if ir = RET then some (fun s _ _ => handle_RET s)
  else if ir = ST then some (fun s a b => handle_ST s a b)
  else none

/-- One CPU cycle, `tick()`.  Note the source order: the instruction byte
and both operand bytes are fetched at the incoming PC first; the interrupt
check (`if (this.reg[IS] !== 0) interrupt_general()`) runs after that
fetch and before dispatch; dispatch then uses the already-fetched bytes;
finally PC is advanced by `(IR >>> 6) + 1` unless IR is one of
CALL/JEQ/JGT/JLT/JMP/JNE/RET, which manage PC themselves. -/
def tick (s : Machine) : Machine :=
  let IR := s.mem s.PC
  let operandA := s.mem (s.PC + 1)
  let operandB := s.mem (s.PC + 2)
  let s1 := if s.reg IS ≠ 0 then interrupt_general s else s
  let s2 := match branchTable IR with
    | some h => h s1 operandA operandB
    | none => handle_invalid_instruction s1 IR
  if IR = CALL ∨ IR = JEQ ∨ IR = JGT ∨ IR = JLT ∨ IR = JMP ∨ IR = JNE ∨
      IR = RET then s2
  else { s2 with PC := s2.PC + (jsUshr6 IR + 1) }

/-- One firing opportunity of the clock interval: `tick()` runs only while
the interval is still scheduled (`stopClock` clears it). -/
def clockStep (s : Machine) : Machine := if s.running then tick s else s

/-- Runs `n` consecutive clock firings. -/
def clockRun : Nat → Machine → Machine
  | 0, s => s
  | n + 1, s => clockRun n (clockStep s)

/-- Operand bytes consumed by each table opcode's handler — the number of
parameters the handler declares (which also matches the operand column of
the design's instruction table). -/
def operandArity (ir : Int) : Option Int :=
  if ir = ADD then some 2
  else if ir = CALL then some 1
  else if ir = CMP then some 2
  else if ir = HLT then some 0
  else if ir = JEQ then some 1
  else if ir = JGT then some 1
  else if ir = JLT then some 1
  else if ir = JMP then some 1
  else if ir = JNE then some 1
  else if ir = LDI then some 2
  else if ir = MUL then some 2
  else if ir = POP then some 1
  else if ir = PRA then some 1
  else if ir = PRN then some 1
  else if ir = PUSH then some 1
  else if ir = RET then some 0
  else if ir = ST then some 2
  else none


/-! Concrete machines used as failing inputs and witnesses.  Each one is a
small program image together with a register file, as the loader would set
up before starting the clock (SP initialised to 0xF4 as in the
constructor). -/

/-- Failing input for the interrupt-ordering claim: IS = 1 is pending, the
pre-interrupt PC points at `LDI R0, 42`, the interrupt vector at 0xF8
holds handler address 100, and the handler's first byte is `HLT`. -/
def progInterruptBug : Machine :=
  { reg := fun i => if i = 7 then 244 else if i = 6 then 1 else 0
    PC := 0, FL := 0
    mem := fun a =>
      if a = 0 then 153 else if a = 1 then 0 else if a = 2 then 42
      else if a = 248 then 100 else if a = 100 then 1 else 0
    running := true, output := [] }

/-- A machine with a pending interrupt (IS = 1) and distinct register
values, used to witness the interrupt-servicing stack layout. -/
def progInterrupt : Machine :=
  { reg := fun i =>
      if i = 7 then 244 else if i = 6 then 1 else if i = 0 then 11
      else if i = 1 then 12 else if i = 2 then 13 else if i = 3 then 14
      else if i = 4 then 15 else if i = 5 then 16 else 0
    PC := 3, FL := 0
    mem := fun a => if a = 248 then 100 else 0
    running := true, output := [] }

/-- A second pending-interrupt machine (IS = 5), used to witness that the
pushed register-6 and register-7 slots do not hold pre-interrupt values. -/
def progInterrupt2 : Machine :=
  { reg := fun i => if i = 7 then 244 else if i = 6 then 5 else 0
    PC := 8, FL := 0
    mem := fun a => if a = 248 then 60 else 0
    running := true, output := [] }

/-- Program `LDI R0, 42` at address 0 with no pending interrupt. -/
def progLDI : Machine :=
  { reg := fun i => if i = 7 then 244 else 0
    PC := 0, FL := 0
    mem := fun a => if a = 0 then 153 else if a = 1 then 0 else if a = 2 then 42 else 0
    running := true, output := [] }

/-- A machine whose next opcode byte is 0b11111111, absent from the
dispatch mapping. -/
def progInvalid : Machine :=
  { reg := fun i => if i = 7 then 244 else 0
    PC := 0, FL := 0
    mem := fun _ => 255
    running := true, output := [] }

/-- Program `CMP R0, R1` with R0 = 7, R1 = 3 and stale flags from a prior
comparison (FL = 1). -/
def progCMP : Machine :=
  { reg := fun i => if i = 7 then 244 else if i = 0 then 7 else if i = 1 then 3 else 0
    PC := 0, FL := 1
    mem := fun a => if a = 0 then 160 else if a = 1 then 0 else if a = 2 then 1 else 0
    running := true, output := [] }

/-- Program `CALL R0` at address 0 with R0 = 10 and a routine at 10 that is
a bare `RET`. -/
def progCallRet : Machine :=
  { reg := fun i => if i = 7 then 244 else if i = 0 then 10 else 0
    PC := 0, FL := 0
    mem := fun a => if a = 0 then 72 else if a = 1 then 0 else if a = 10 then 9 else 0
    running := true, output := [] }

/-- Program `PUSH R0; POP R0` with R0 = 99. -/
def progPushPop : Machine :=
  { reg := fun i => if i = 7 then 244 else if i = 0 then 99 else 0
    PC := 0, FL := 0
    mem := fun a =>
      if a = 0 then 77 else if a = 1 then 0 else if a = 2 then 76
      else if a = 3 then 0 else 0
    running := true, output := [] }

/-- Program `PUSH R7; POP R7` — pushing and popping the Stack Pointer
register itself, starting from SP = 244. -/
def progPushPop7 : Machine :=
  { reg := fun i => if i = 7 then 244 else 0
    PC := 0, FL := 0
    mem := fun a =>
      if a = 0 then 77 else if a = 1 then 7 else if a = 2 then 76
      else if a = 3 then 7 else 0
    running := true, output := [] }

/-- Program `JEQ R0` with FL = 4 (LESS, not EQUAL) and R0 = 50. -/
def progJEQ : Machine :=
  { reg := fun i => if i = 7 then 244 else if i = 0 then 50 else 0
    PC := 0, FL := 4
    mem := fun a => if a = 0 then 81 else if a = 1 then 0 else 0
    running := true, output := [] }

/-- Program `ADD R0, R1` with R0 = 200, R1 = 200: the sum 400 exceeds
8 bits, exhibiting the unmasked arithmetic. -/
def progADD : Machine :=
  { reg := fun i => if i = 7 then 244 else if i = 0 then 200 else if i = 1 then 200 else 0
    PC := 0, FL := 0
    mem := fun a => if a = 0 then 168 else if a = 1 then 0 else if a = 2 then 1 else 0
    running := true, output := [] }

/-- Program `MUL R0, R1` with R0 = 3, R1 = 4. -/
def progMUL : Machine :=
  { reg := fun i => if i = 7 then 244 else if i = 0 then 3 else if i = 1 then 4 else 0
    PC := 0, FL := 0
    mem := fun a => if a = 0 then 170 else if a = 1 then 0 else if a = 2 then 1 else 0
    running := true, output := [] }

/-- Program `ADD R0, R0` (both operand bytes name register 0) with R0 = 3. -/
def progADDSelf : Machine :=
  { reg := fun i => if i = 7 then 244 else if i = 0 then 3 else 0
    PC := 0, FL := 0
    mem := fun a => if a = 0 then 168 else if a = 1 then 0 else if a = 2 then 0 else 0
    running := true, output := [] }

/-! Projection lemmas for the state-mutation primitives. -/

lemma setReg_reg (s : Machine) (i v j : Int) :
    (setReg s i v).reg j = if j = i then v else s.reg j := rfl

lemma setReg_mem (s : Machine) (i v : Int) : (setReg s i v).mem = s.mem := rfl

lemma setReg_PC (s : Machine) (i v : Int) : (setReg s i v).PC = s.PC := rfl

lemma handle_PUSHval_reg (s : Machine) (v j : Int) :
    (handle_PUSHval s v).reg j = if j = 7 then s.reg 7 - 1 else s.reg j := by
  simp [handle_PUSHval, setReg, writeMem, SP]

lemma handle_PUSHval_mem (s : Machine) (v a : Int) :
    (handle_PUSHval s v).mem a = if a = s.reg 7 - 1 then v else s.mem a := by
  simp [handle_PUSHval, setReg, writeMem, SP]

lemma handle_PUSHval_PC (s : Machine) (v : Int) : (handle_PUSHval s v).PC = s.PC := rfl

lemma handle_PUSH_reg (s : Machine) (register j : Int) :
    (handle_PUSH s register).reg j = if j = 7 then s.reg 7 - 1 else s.reg j := by
  simp [handle_PUSH, setReg, writeMem, SP]

lemma handle_PUSH_mem (s : Machine) (register a : Int) :
    (handle_PUSH s register).mem a =
      if a = s.reg 7 - 1 then (if register = 7 then s.reg 7 - 1 else s.reg register)
      else s.mem a := by
  simp [handle_PUSH, setReg, writeMem, SP]

lemma handle_PUSH_PC (s : Machine) (register : Int) :
    (handle_PUSH s register).PC = s.PC := rfl

lemma handle_POP_reg (s : Machine) (register j : Int) :
    (handle_POP s register).reg j =
      if j = register then s.mem (s.reg 7)
      else if j = 7 then s.reg 7 + 1 else s.reg j := by
  simp [handle_POP, handle_POPval, setReg, SP]

lemma handle_POP_mem (s : Machine) (register : Int) :
    (handle_POP s register).mem = s.mem := rfl

lemma handle_POP_PC (s : Machine) (register : Int) :
    (handle_POP s register).PC = s.PC := rfl

lemma interrupt_general_running (s : Machine) :
    (interrupt_general s).running = s.running := rfl

lemma interrupt_general_output (s : Machine) :
    (interrupt_general s).output = s.output := rfl

set_option maxHeartbeats 1000000 in
/-- Stepping the interrupt-servicing routine through its ten state
mutations: clearing IS, the nine pushes, and the vector load.  The
intermediate machines are abstracted so the rewriting stays linear. -/
lemma interrupt_key (s : Machine) :
    ∀ m1 m2 m3 m4 m5 m6 m7 m8 m9 m10 : Machine,
      m1 = setReg s 6 0 →
      m2 = handle_PUSHval m1 m1.PC →
      m3 = handle_PUSHval m2 (m2.reg 0) →
      m4 = handle_PUSHval m3 (m3.reg 1) →
      m5 = handle_PUSHval m4 (m4.reg 2) →
      m6 = handle_PUSHval m5 (m5.reg 3) →
      m7 = handle_PUSHval m6 (m6.reg 4) →
      m8 = handle_PUSHval m7 (m7.reg 5) →
      m9 = handle_PUSHval m8 (m8.reg 6) →
      m10 = handle_PUSHval m9 (m9.reg 7) →
      m10.reg 6 = 0 ∧ m10.reg 7 = s.reg 7 - 9 ∧
      (∀ x : Int, m10.mem x =
        if x = s.reg 7 - 9 then s.reg 7 - 8
        else if x = s.reg 7 - 8 then 0
        else if x = s.reg 7 - 7 then s.reg 5
        else if x = s.reg 7 - 6 then s.reg 4
        else if x = s.reg 7 - 5 then s.reg 3
        else if x = s.reg 7 - 4 then s.reg 2
        else if x = s.reg 7 - 3 then s.reg 1
        else if x = s.reg 7 - 2 then s.reg 0
        else if x = s.reg 7 - 1 then s.PC
        else s.mem x) := by
  intro m1 m2 m3 m4 m5 m6 m7 m8 m9 m10 h1 h2 h3 h4 h5 h6 h7 h8 h9 h10
  have r1 : m1.reg 7 = s.reg 7 := by rw [h1, setReg_reg]; norm_num
  have r2 : m2.reg 7 = s.reg 7 - 1 := by rw [h2, handle_PUSHval_reg, if_pos rfl, r1]
  have r3 : m3.reg 7 = s.reg 7 - 2 := by rw [h3, handle_PUSHval_reg, if_pos rfl, r2]; ring
  have r4 : m4.reg 7 = s.reg 7 - 3 := by rw [h4, handle_PUSHval_reg, if_pos rfl, r3]; ring
  have r5 : m5.reg 7 = s.reg 7 - 4 := by rw [h5, handle_PUSHval_reg, if_pos rfl, r4]; ring
  have r6 : m6.reg 7 = s.reg 7 - 5 := by rw [h6, handle_PUSHval_reg, if_pos rfl, r5]; ring
  have r7 : m7.reg 7 = s.reg 7 - 6 := by rw [h7, handle_PUSHval_reg, if_pos rfl, r6]; ring
  have r8 : m8.reg 7 = s.reg 7 - 7 := by rw [h8, handle_PUSHval_reg, if_pos rfl, r7]; ring
  have r9 : m9.reg 7 = s.reg 7 - 8 := by rw [h9, handle_PUSHval_reg, if_pos rfl, r8]; ring
  have r10 : m10.reg 7 = s.reg 7 - 9 := by rw [h10, handle_PUSHval_reg, if_pos rfl, r9]; ring
  have p2 : ∀ j, j ≠ 7 → m2.reg j = m1.reg j := by
    intro j hj; rw [h2, handle_PUSHval_reg, if_neg hj]
  have p3 : ∀ j, j ≠ 7 → m3.reg j = m1.reg j := by
    intro j hj; rw [h3, handle_PUSHval_reg, if_neg hj, p2 j hj]
  have p4 : ∀ j, j ≠ 7 → m4.reg j = m1.reg j := by
    intro j hj; rw [h4, handle_PUSHval_reg, if_neg hj, p3 j hj]
  have p5 : ∀ j, j ≠ 7 → m5.reg j = m1.reg j := by
    intro j hj; rw [h5, handle_PUSHval_reg, if_neg hj, p4 j hj]
  have p6 : ∀ j, j ≠ 7 → m6.reg j = m1.reg j := by
    intro j hj; rw [h6, handle_PUSHval_reg, if_neg hj, p5 j hj]
  have p7 : ∀ j, j ≠ 7 → m7.reg j = m1.reg j := by
    intro j hj; rw [h7, handle_PUSHval_reg, if_neg hj, p6 j hj]
  have p8 : ∀ j, j ≠ 7 → m8.reg j = m1.reg j := by
    intro j hj; rw [h8, handle_PUSHval_reg, if_neg hj, p7 j hj]
  have p9 : ∀ j, j ≠ 7 → m9.reg j = m1.reg j := by
    intro j hj; rw [h9, handle_PUSHval_reg, if_neg hj, p8 j hj]
  have p10 : ∀ j, j ≠ 7 → m10.reg j = m1.reg j := by
    intro j hj; rw [h10, handle_PUSHval_reg, if_neg hj, p9 j hj]
  have g6 : m1.reg 6 = 0 := by rw [h1, setReg_reg]; norm_num
  have g1 : ∀ j : Int, j ≠ 6 → m1.reg j = s.reg j := by
    intro j hj; rw [h1, setReg_reg, if_neg hj]
  refine ⟨by rw [p10 6 (by norm_num), g6], r10, ?_⟩
  intro x
  have vPC : m1.PC = s.PC := by rw [h1, setReg_PC]
  rw [h10, handle_PUSHval_mem, r9, h9, handle_PUSHval_mem, r8,
      p8 6 (by norm_num), g6, h8, handle_PUSHval_mem, r7, p7 5 (by norm_num),
      g1 5 (by norm_num), h7, handle_PUSHval_mem, r6, p6 4 (by norm_num),
      g1 4 (by norm_num), h6, handle_PUSHval_mem, r5, p5 3 (by norm_num),
      g1 3 (by norm_num), h5, handle_PUSHval_mem, r4, p4 2 (by norm_num),
      g1 2 (by norm_num), h4, handle_PUSHval_mem, r3, p3 1 (by norm_num),
      g1 1 (by norm_num), h3, handle_PUSHval_mem, r2, p2 0 (by norm_num),
      g1 0 (by norm_num), h2, handle_PUSHval_mem, r1, vPC, h1, setReg_mem]
  ring_nf

/-- Full characterization of `interrupt_general`: IS cleared, SP moved
down by 9, PC loaded from the vector, and the stack image it leaves in
memory. -/
lemma interrupt_general_spec (s : Machine) :
    (interrupt_general s).reg 6 = 0 ∧
    (interrupt_general s).reg 7 = s.reg 7 - 9 ∧
    (interrupt_general s).PC = (interrupt_general s).mem 0xF8 ∧
    (∀ x : Int, (interrupt_general s).mem x =
      if x = s.reg 7 - 9 then s.reg 7 - 8
      else if x = s.reg 7 - 8 then 0
      else if x = s.reg 7 - 7 then s.reg 5
      else if x = s.reg 7 - 6 then s.reg 4
      else if x = s.reg 7 - 5 then s.reg 3
      else if x = s.reg 7 - 4 then s.reg 2
      else if x = s.reg 7 - 3 then s.reg 1
      else if x = s.reg 7 - 2 then s.reg 0
      else if x = s.reg 7 - 1 then s.PC
      else s.mem x) := by
  obtain ⟨k1, k2, k3⟩ :=
    interrupt_key s _ _ _ _ _ _ _ _ _ _ rfl rfl rfl rfl rfl rfl rfl rfl rfl rfl
  exact ⟨k1, k2, rfl, k3⟩

/-- Once the clock interval has been cleared, no further firing runs a
tick: the machine state is frozen. -/
lemma clockRun_halted {t : Machine} (h : t.running = false) :
    ∀ n : Nat, clockRun n t = t := by
  intro n
  induction n with
  | zero => rfl
  | succ n ih =>
    show clockRun n (clockStep t) = t
    rw [clockStep, h]
    simpa using ih

/-- Dispatch shape of a tick with no pending interrupt whose opcode is in
the branch table but not in the set that manages PC itself. -/
lemma tick_dispatch_eq (s : Machine) (hIS : s.reg 6 = 0)
    (h : Machine → Int → Int → Machine)
    (hbt : branchTable (s.mem s.PC) = some h)
    (hno : ¬(s.mem s.PC = CALL ∨ s.mem s.PC = JEQ ∨ s.mem s.PC = JGT ∨
      s.mem s.PC = JLT ∨ s.mem s.PC = JMP ∨ s.mem s.PC = JNE ∨
      s.mem s.PC = RET)) :
    tick s = { h s (s.mem (s.PC + 1)) (s.mem (s.PC + 2)) with
      PC := (h s (s.mem (s.PC + 1)) (s.mem (s.PC + 2))).PC +
        (jsUshr6 (s.mem s.PC) + 1) } := by
  simp only [tick, IS, hbt, hIS]
  rw [if_neg hno]
  norm_num

/-- Dispatch shape of a tick with no pending interrupt whose opcode is one
of CALL/JEQ/JGT/JLT/JMP/JNE/RET: the handler alone determines PC. -/
lemma tick_jump_eq (s : Machine) (hIS : s.reg 6 = 0)
    (h : Machine → Int → Int → Machine)
    (hbt : branchTable (s.mem s.PC) = some h)
    (hyes : s.mem s.PC = CALL ∨ s.mem s.PC = JEQ ∨ s.mem s.PC = JGT ∨
      s.mem s.PC = JLT ∨ s.mem s.PC = JMP ∨ s.mem s.PC = JNE ∨
      s.mem s.PC = RET) :
    tick s = h s (s.mem (s.PC + 1)) (s.mem (s.PC + 2)) := by
  simp only [tick, IS, hbt, hIS]
  rw [if_pos hyes]
  norm_num

lemma handle_CALL_reg (s : Machine) (register j : Int) :
    (handle_CALL s register).reg j = if j = 7 then s.reg 7 - 1 else s.reg j := by
  simp [handle_CALL, handle_PUSHval_reg]

lemma handle_CALL_mem (s : Machine) (register a : Int) :
    (handle_CALL s register).mem a =
      if a = s.reg 7 - 1 then s.PC + 2 else s.mem a := by
  simp [handle_CALL, handle_PUSHval_mem]

lemma handle_RET_PC (s : Machine) : (handle_RET s).PC = s.mem (s.reg 7) := rfl

/-- Component form of `tick_dispatch_eq`: every field of the post-tick
machine in terms of the dispatched handler's result. -/
lemma tick_dispatch_parts (s : Machine) (hIS : s.reg 6 = 0)
    (h : Machine → Int → Int → Machine)
    (hbt : branchTable (s.mem s.PC) = some h)
    (hno : ¬(s.mem s.PC = CALL ∨ s.mem s.PC = JEQ ∨ s.mem s.PC = JGT ∨
      s.mem s.PC = JLT ∨ s.mem s.PC = JMP ∨ s.mem s.PC = JNE ∨
      s.mem s.PC = RET)) :
    (tick s).reg = (h s (s.mem (s.PC + 1)) (s.mem (s.PC + 2))).reg ∧
    (tick s).FL = (h s (s.mem (s.PC + 1)) (s.mem (s.PC + 2))).FL ∧
    (tick s).mem = (h s (s.mem (s.PC + 1)) (s.mem (s.PC + 2))).mem ∧
    (tick s).running = (h s (s.mem (s.PC + 1)) (s.mem (s.PC + 2))).running ∧
    (tick s).output = (h s (s.mem (s.PC + 1)) (s.mem (s.PC + 2))).output ∧
    (tick s).PC = (h s (s.mem (s.PC + 1)) (s.mem (s.PC + 2))).PC +
      (jsUshr6 (s.mem s.PC) + 1) := by
  have ht := tick_dispatch_eq s hIS h hbt hno
  exact ⟨by rw [ht], by rw [ht], by rw [ht], by rw [ht], by rw [ht], by rw [ht]⟩


/-! The claims. -/

/-- C1: the claim states that on every tick the Interrupt Controller check
runs before the instruction fetch, so that on a tick beginning with IS
nonzero the instruction dispatched is the one fetched at the new PC (the
handler address from the vector).  The code fetches the instruction byte
and operands at the incoming PC before the interrupt check, so on this
input — IS pending, `LDI R0, 42` at the pre-interrupt PC, vector 0xF8
pointing at 100, and `HLT` at 100 — the dispatched instruction is the
pre-interrupt `LDI` (register 0 becomes 42 and the clock keeps running
instead of halting), and PC is then advanced from the handler address
(100 + 3 = 103), contradicting the claim. -/
theorem C1_fetch_precedes_interrupt_check :
    progInterruptBug.reg 6 ≠ 0 ∧
    progInterruptBug.mem progInterruptBug.PC = LDI ∧
    progInterruptBug.mem 0xF8 = 100 ∧
    progInterruptBug.mem 100 = HLT ∧
    (tick progInterruptBug).reg 0 = 42 ∧
    (tick progInterruptBug).running = true ∧
    (tick progInterruptBug).PC = 103 := by decide

/-- C2: for every tick starting with IS nonzero, immediately after
`interrupt_general` completes, IS reads 0, PC equals the byte stored at
the fixed vector address 0xF8, SP has moved down by 9, and the stack
holds, from the top of stack (the new SP, lowest address) downward,
the pushed values of general registers 7 down to 0 with the
pre-interrupt PC beneath them.  Each slot holds the value its register
had at the moment of its push: registers 0–5 their pre-interrupt
values, register 6 the already-cleared 0 and register 7 the
eight-times-decremented SP (claim C3 records that detail). -/
theorem C2_interrupt_servicing (s : Machine) (hIS : s.reg 6 ≠ 0) :
    (interrupt_general s).reg 6 = 0 ∧
    (interrupt_general s).PC = (interrupt_general s).mem 0xF8 ∧
    (interrupt_general s).reg 7 = s.reg 7 - 9 ∧
    (interrupt_general s).mem (s.reg 7 - 9) = s.reg 7 - 8 ∧
    (interrupt_general s).mem (s.reg 7 - 8) = 0 ∧
    (interrupt_general s).mem (s.reg 7 - 7) = s.reg 5 ∧
    (interrupt_general s).mem (s.reg 7 - 6) = s.reg 4 ∧
    (interrupt_general s).mem (s.reg 7 - 5) = s.reg 3 ∧
    (interrupt_general s).mem (s.reg 7 - 4) = s.reg 2 ∧
    (interrupt_general s).mem (s.reg 7 - 3) = s.reg 1 ∧
    (interrupt_general s).mem (s.reg 7 - 2) = s.reg 0 ∧
    (interrupt_general s).mem (s.reg 7 - 1) = s.PC := by
  obtain ⟨k1, k2, k3, M⟩ := interrupt_general_spec s
  refine ⟨k1, k3, k2, ?_, ?_, ?_, ?_, ?_, ?_, ?_, ?_, ?_⟩
  · rw [M, if_pos rfl]
  · rw [M, if_neg (by omega : ¬(s.reg 7 - 8 = s.reg 7 - 9)),
        if_pos rfl]
  · rw [M, if_neg (by omega : ¬(s.reg 7 - 7 = s.reg 7 - 9)),
        if_neg (by omega : ¬(s.reg 7 - 7 = s.reg 7 - 8)),
        if_pos rfl]
  · rw [M, if_neg (by omega : ¬(s.reg 7 - 6 = s.reg 7 - 9)),
        if_neg (by omega : ¬(s.reg 7 - 6 = s.reg 7 - 8)),
        if_neg (by omega : ¬(s.reg 7 - 6 = s.reg 7 - 7)),
        if_pos rfl]
  · rw [M, if_neg (by omega : ¬(s.reg 7 - 5 = s.reg 7 - 9)),
        if_neg (by omega : ¬(s.reg 7 - 5 = s.reg 7 - 8)),
        if_neg (by omega : ¬(s.reg 7 - 5 = s.reg 7 - 7)),
        if_neg (by omega : ¬(s.reg 7 - 5 = s.reg 7 - 6)),
        if_pos rfl]
  · rw [M, if_neg (by omega : ¬(s.reg 7 - 4 = s.reg 7 - 9)),
        if_neg (by omega : ¬(s.reg 7 - 4 = s.reg 7 - 8)),
        if_neg (by omega : ¬(s.reg 7 - 4 = s.reg 7 - 7)),
        if_neg (by omega : ¬(s.reg 7 - 4 = s.reg 7 - 6)),
        if_neg (by omega : ¬(s.reg 7 - 4 = s.reg 7 - 5)),
        if_pos rfl]
  · rw [M, if_neg (by omega : ¬(s.reg 7 - 3 = s.reg 7 - 9)),
        if_neg (by omega : ¬(s.reg 7 - 3 = s.reg 7 - 8)),
        if_neg (by omega : ¬(s.reg 7 - 3 = s.reg 7 - 7)),
        if_neg (by omega : ¬(s.reg 7 - 3 = s.reg 7 - 6)),
        if_neg (by omega : ¬(s.reg 7 - 3 = s.reg 7 - 5)),
        if_neg (by omega : ¬(s.reg 7 - 3 = s.reg 7 - 4)),
        if_pos rfl]
  · rw [M, if_neg (by omega : ¬(s.reg 7 - 2 = s.reg 7 - 9)),
        if_neg (by omega : ¬(s.reg 7 - 2 = s.reg 7 - 8)),
        if_neg (by omega : ¬(s.reg 7 - 2 = s.reg 7 - 7)),
        if_neg (by omega : ¬(s.reg 7 - 2 = s.reg 7 - 6)),
        if_neg (by omega : ¬(s.reg 7 - 2 = s.reg 7 - 5)),
        if_neg (by omega : ¬(s.reg 7 - 2 = s.reg 7 - 4)),
        if_neg (by omega : ¬(s.reg 7 - 2 = s.reg 7 - 3)),
        if_pos rfl]
  · rw [M, if_neg (by omega : ¬(s.reg 7 - 1 = s.reg 7 - 9)),
        if_neg (by omega : ¬(s.reg 7 - 1 = s.reg 7 - 8)),
        if_neg (by omega : ¬(s.reg 7 - 1 = s.reg 7 - 7)),
        if_neg (by omega : ¬(s.reg 7 - 1 = s.reg 7 - 6)),
        if_neg (by omega : ¬(s.reg 7 - 1 = s.reg 7 - 5)),
        if_neg (by omega : ¬(s.reg 7 - 1 = s.reg 7 - 4)),
        if_neg (by omega : ¬(s.reg 7 - 1 = s.reg 7 - 3)),
        if_neg (by omega : ¬(s.reg 7 - 1 = s.reg 7 - 2)),
        if_pos rfl]

/-- Witness for C2 on a concrete pending-interrupt machine (SP = 244,
PC = 3, registers 0–5 holding 11–16, IS = 1). -/
theorem C2_interrupt_servicing_witness :
    progInterrupt.reg 6 ≠ 0 ∧
    ((interrupt_general progInterrupt).reg 6 = 0 ∧
     (interrupt_general progInterrupt).PC = (interrupt_general progInterrupt).mem 248 ∧
     (interrupt_general progInterrupt).reg 7 = 235 ∧
     (interrupt_general progInterrupt).mem 235 = 236 ∧
     (interrupt_general progInterrupt).mem 236 = 0 ∧
     (interrupt_general progInterrupt).mem 237 = 16 ∧
     (interrupt_general progInterrupt).mem 238 = 15 ∧
     (interrupt_general progInterrupt).mem 239 = 14 ∧
     (interrupt_general progInterrupt).mem 240 = 13 ∧
     (interrupt_general progInterrupt).mem 241 = 12 ∧
     (interrupt_general progInterrupt).mem 242 = 11 ∧
     (interrupt_general progInterrupt).mem 243 = 3) :=
  ⟨by decide, C2_interrupt_servicing progInterrupt (by decide)⟩

/-- C3: during interrupt servicing the context slots pushed for registers
6 and 7 do not hold those registers' pre-interrupt values: the slot for
register 6 (IS, address SP - 8) holds 0 because IS is cleared before the
pushes, and the slot for register 7 (SP, address SP - 9) holds the SP as
decremented by the eight preceding pushes, SP - 8. -/
theorem C3_pushed_context_values (s : Machine) (hIS : s.reg 6 ≠ 0) :
    (interrupt_general s).mem (s.reg 7 - 8) = 0 ∧
    (interrupt_general s).mem (s.reg 7 - 8) ≠ s.reg 6 ∧
    (interrupt_general s).mem (s.reg 7 - 9) = s.reg 7 - 8 ∧
    (interrupt_general s).mem (s.reg 7 - 9) ≠ s.reg 7 := by
  obtain ⟨k1, k2, k3, M⟩ := interrupt_general_spec s
  have h8 : (interrupt_general s).mem (s.reg 7 - 8) = 0 := by
    rw [M, if_neg (by omega : ¬(s.reg 7 - 8 = s.reg 7 - 9)), if_pos rfl]
  have h9 : (interrupt_general s).mem (s.reg 7 - 9) = s.reg 7 - 8 := by
    rw [M, if_pos rfl]
  refine ⟨h8, ?_, h9, ?_⟩
  · rw [h8]; omega
  · rw [h9]; omega

/-- Witness for C3 on a machine with pre-interrupt IS = 5 and SP = 244:
the pushed register-6 slot holds 0 ≠ 5 and the pushed register-7 slot
holds 236 ≠ 244. -/
theorem C3_pushed_context_values_witness :
    progInterrupt2.reg 6 ≠ 0 ∧
    ((interrupt_general progInterrupt2).mem 236 = 0 ∧
     (interrupt_general progInterrupt2).mem 236 ≠ 5 ∧
     (interrupt_general progInterrupt2).mem 235 = 236 ∧
     (interrupt_general progInterrupt2).mem 235 ≠ 244) :=
  ⟨by decide, C3_pushed_context_values progInterrupt2 (by decide)⟩

/-- C6: after every CMP instruction (dispatched on a tick with no pending
interrupt), FL holds exactly one of the bits EQUAL (1), GREATER (2),
LESS (4) — EQUAL exactly when the two register values are equal, GREATER
exactly when the first exceeds the second, LESS exactly otherwise — and
the prior FL value is fully overwritten (the result is independent of
the incoming FL). -/
theorem C6_cmp_sets_exactly_one_flag (s : Machine) (regA regB : Int)
    (hIS : s.reg 6 = 0) (hIR : s.mem s.PC = CMP)
    (hA : s.mem (s.PC + 1) = regA) (hB : s.mem (s.PC + 2) = regB) :
    ((tick s).FL = 1 ∨ (tick s).FL = 2 ∨ (tick s).FL = 4) ∧
    ((tick s).FL = 1 ↔ s.reg regA = s.reg regB) ∧
    ((tick s).FL = 2 ↔ s.reg regA > s.reg regB) ∧
    ((tick s).FL = 4 ↔ s.reg regA < s.reg regB) := by
  have hbt : branchTable (s.mem s.PC) = some (fun s a b => handle_CMP s a b) := by
    rw [hIR]; rfl
  have hno : ¬(s.mem s.PC = CALL ∨ s.mem s.PC = JEQ ∨ s.mem s.PC = JGT ∨
      s.mem s.PC = JLT ∨ s.mem s.PC = JMP ∨ s.mem s.PC = JNE ∨
      s.mem s.PC = RET) := by
    rw [hIR]; decide
  obtain ⟨_, tFL, _, _, _, _⟩ := tick_dispatch_parts s hIS _ hbt hno
  simp only [hA, hB] at tFL
  rw [tFL]
  unfold handle_CMP
  split_ifs with h1 h2 h3 <;> simp_all <;> omega

/-- Witness for C6: CMP on R0 = 7, R1 = 3 with stale FL = 1 ends with FL
= 2 (GREATER only), overwriting the stale EQUAL bit. -/
theorem C6_cmp_sets_exactly_one_flag_witness :
    progCMP.FL = 1 ∧ (tick progCMP).FL = 2 := by
  obtain ⟨hone, hiff1, hiff2, hiff4⟩ :=
    C6_cmp_sets_exactly_one_flag progCMP 0 1 rfl rfl rfl rfl
  exact ⟨rfl, hiff2.mpr (by decide)⟩

/-- C7: a CALL at address P pushes the return address P + 2 onto the stack
(SP moves down by 1 and the new top of stack holds P + 2) and, for any
later state whose stack has been rebalanced to that SP with the saved
return address intact, executing the matching RET sets PC to exactly
P + 2, the instruction following the CALL and its operand byte. -/
theorem C7_call_ret_roundtrip (s : Machine) (P r : Int)
    (hPC : s.PC = P) (hIS : s.reg 6 = 0)
    (hIR : s.mem P = CALL) (hr : s.mem (P + 1) = r) :
    (tick s).reg 7 = s.reg 7 - 1 ∧
    (tick s).mem ((tick s).reg 7) = P + 2 ∧
    (∀ s2 : Machine, s2.reg 6 = 0 → s2.mem s2.PC = RET →
      s2.reg 7 = (tick s).reg 7 → s2.mem (s2.reg 7) = P + 2 →
      (tick s2).PC = P + 2) := by
  have hIR2 : s.mem s.PC = CALL := by rw [hPC]; exact hIR
  have hbt : branchTable (s.mem s.PC) = some (fun s a _ => handle_CALL s a) := by
    rw [hIR2]; rfl
  have ht := tick_jump_eq s hIS _ hbt (Or.inl hIR2)
  rw [hPC, hr] at ht
  have t7 : (tick s).reg 7 = s.reg 7 - 1 := by
    rw [ht]
    show (handle_CALL s r).reg 7 = s.reg 7 - 1
    rw [handle_CALL_reg]; norm_num
  refine ⟨t7, ?_, ?_⟩
  · rw [t7, ht]
    show (handle_CALL s r).mem (s.reg 7 - 1) = P + 2
    rw [handle_CALL_mem, if_pos rfl, hPC]
  · intro s2 h2IS h2IR h2SP h2MEM
    have hbt2 : branchTable (s2.mem s2.PC) = some (fun s _ _ => handle_RET s) := by
      rw [h2IR]; rfl
    have hyes2 : s2.mem s2.PC = CALL ∨ s2.mem s2.PC = JEQ ∨ s2.mem s2.PC = JGT ∨
        s2.mem s2.PC = JLT ∨ s2.mem s2.PC = JMP ∨ s2.mem s2.PC = JNE ∨
        s2.mem s2.PC = RET := by
      rw [h2IR]; decide
    have ht2 := tick_jump_eq s2 h2IS _ hbt2 hyes2
    rw [ht2]
    show (handle_RET s2).PC = P + 2
    rw [handle_RET_PC, h2MEM]

/-- Witness for C7: CALL R0 at address 0 (R0 = 10) to a routine at 10
that is a bare RET; after the CALL and the RET, PC is back at 0 + 2. -/
theorem C7_call_ret_roundtrip_witness :
    progCallRet.mem 0 = CALL ∧ progCallRet.mem 10 = RET ∧
    (tick (tick progCallRet)).PC = 0 + 2 := by
  obtain ⟨a, b, c⟩ := C7_call_ret_roundtrip progCallRet 0 0 rfl rfl rfl rfl
  refine ⟨rfl, rfl, c (tick progCallRet) ?_ ?_ ?_ ?_⟩ <;> decide

/-- C9: a tick dispatching JEQ while FL is not EQUAL (FL ≠ 1) advances PC
by exactly 2 — past the opcode and its one operand byte — and performs no
jump and no other state change; the generic advancement rule adds
nothing because JEQ is in the handler-managed set. -/
theorem C9_jeq_not_taken (s : Machine) (hIS : s.reg 6 = 0)
    (hIR : s.mem s.PC = JEQ) (hFL : s.FL ≠ 1) :
    (tick s).PC = s.PC + 2 ∧ (∀ j, (tick s).reg j = s.reg j) ∧
    (∀ a, (tick s).mem a = s.mem a) ∧ (tick s).FL = s.FL := by
  have hbt : branchTable (s.mem s.PC) = some (fun s a _ => handle_JEQ s a) := by
    rw [hIR]; rfl
  have hyes : s.mem s.PC = CALL ∨ s.mem s.PC = JEQ ∨ s.mem s.PC = JGT ∨
      s.mem s.PC = JLT ∨ s.mem s.PC = JMP ∨ s.mem s.PC = JNE ∨
      s.mem s.PC = RET := by
    rw [hIR]; decide
  have ht := tick_jump_eq s hIS _ hbt hyes
  rw [ht]
  show (handle_JEQ s (s.mem (s.PC + 1))).PC = s.PC + 2 ∧ _
  unfold handle_JEQ
  rw [if_neg hFL]
  exact ⟨rfl, fun j => rfl, fun a => rfl, rfl⟩

/-- Witness for C9: JEQ R0 with FL = 4 (LESS) and R0 = 50 leaves PC at
0 + 2 rather than jumping to 50. -/
theorem C9_jeq_not_taken_witness :
    progJEQ.FL ≠ 1 ∧ (tick progJEQ).PC = progJEQ.PC + 2 := by
  obtain ⟨a, b, c, d⟩ := C9_jeq_not_taken progJEQ rfl rfl (by decide)
  exact ⟨by decide, a⟩

/-- C4: for every opcode in the instruction table, the operand count its
handler consumes equals the opcode's two high bits (`opcode >>> 6`), and
for every dispatched opcode the loop adds `1 + operandCount` to the PC
left by the handler — except for CALL/JEQ/JGT/JLT/JMP/JNE/RET, for which
the loop performs no PC advancement of its own. -/
theorem C4_operand_count_and_advance :
    (∀ op n : Int, operandArity op = some n → n = jsUshr6 op) ∧
    (∀ s : Machine, s.reg 6 = 0 →
      ∀ h : Machine → Int → Int → Machine, branchTable (s.mem s.PC) = some h →
      ((s.mem s.PC = CALL ∨ s.mem s.PC = JEQ ∨ s.mem s.PC = JGT ∨
        s.mem s.PC = JLT ∨ s.mem s.PC = JMP ∨ s.mem s.PC = JNE ∨
        s.mem s.PC = RET) →
        (tick s).PC = (h s (s.mem (s.PC + 1)) (s.mem (s.PC + 2))).PC) ∧
      (¬(s.mem s.PC = CALL ∨ s.mem s.PC = JEQ ∨ s.mem s.PC = JGT ∨
        s.mem s.PC = JLT ∨ s.mem s.PC = JMP ∨ s.mem s.PC = JNE ∨
        s.mem s.PC = RET) →
        (tick s).PC = (h s (s.mem (s.PC + 1)) (s.mem (s.PC + 2))).PC +
          (1 + jsUshr6 (s.mem s.PC)))) := by
  constructor
  · intro op n hop
    by_cases e1 : op = ADD
    case pos =>
      subst e1
      rw [show operandArity ADD = some 2 from rfl] at hop
      injection hop with hn
      subst hn
      decide
    by_cases e2 : op = CALL
    case pos =>
      subst e2
      rw [show operandArity CALL = some 1 from rfl] at hop
      injection hop with hn
      subst hn
      decide
    by_cases e3 : op = CMP
    case pos =>
      subst e3
      rw [show operandArity CMP = some 2 from rfl] at hop
      injection hop with hn
      subst hn
      decide
    by_cases e4 : op = HLT
    case pos =>
      subst e4
      rw [show operandArity HLT = some 0 from rfl] at hop
      injection hop with hn
      subst hn
      decide
    by_cases e5 : op = JEQ
    case pos =>
      subst e5
      rw [show operandArity JEQ = some 1 from rfl] at hop
      injection hop with hn
      subst hn
      decide
    by_cases e6 : op = JGT
    case pos =>
      subst e6
      rw [show operandArity JGT = some 1 from rfl] at hop
      injection hop with hn
      subst hn
      decide
    by_cases e7 : op = JLT
    case pos =>
      subst e7
      rw [show operandArity JLT = some 1 from rfl] at hop
      injection hop with hn
      subst hn
      decide
    by_cases e8 : op = JMP
    case pos =>
      subst e8
      rw [show operandArity JMP = some 1 from rfl] at hop
      injection hop with hn
      subst hn
      decide
    by_cases e9 : op = JNE
    case pos =>
      subst e9
      rw [show operandArity JNE = some 1 from rfl] at hop
      injection hop with hn
      subst hn
      decide
    by_cases e10 : op = LDI
    case pos =>
      subst e10
      rw [show operandArity LDI = some 2 from rfl] at hop
      injection hop with hn
      subst hn
      decide
    by_cases e11 : op = MUL
    case pos =>
      subst e11
      rw [show operandArity MUL = some 2 from rfl] at hop
      injection hop with hn
      subst hn
      decide
    by_cases e12 : op = POP
    case pos =>
      subst e12
      rw [show operandArity POP = some 1 from rfl] at hop
      injection hop with hn
      subst hn
      decide
    by_cases e13 : op = PRA
    case pos =>
      subst e13
      rw [show operandArity PRA = some 1 from rfl] at hop
      injection hop with hn
      subst hn
      decide
    by_cases e14 : op = PRN
    case pos =>
      subst e14
      rw [show operandArity PRN = some 1 from rfl] at hop
      injection hop with hn
      subst hn
      decide
    by_cases e15 : op = PUSH
    case pos =>
      subst e15
      rw [show operandArity PUSH = some 1 from rfl] at hop
      injection hop with hn
      subst hn
      decide
    by_cases e16 : op = RET
    case pos =>
      subst e16
      rw [show operandArity RET = some 0 from rfl] at hop
      injection hop with hn
      subst hn
      decide
    by_cases e17 : op = ST
    case pos =>
      subst e17
      rw [show operandArity ST = some 2 from rfl] at hop
      injection hop with hn
      subst hn
      decide
    unfold operandArity at hop
    rw [if_neg e1, if_neg e2, if_neg e3, if_neg e4, if_neg e5, if_neg e6, if_neg e7, if_neg e8, if_neg e9, if_neg e10, if_neg e11, if_neg e12, if_neg e13, if_neg e14, if_neg e15, if_neg e16, if_neg e17] at hop
    exact Option.noConfusion hop
  · intro s hIS h hbt
    constructor
    · intro hyes
      rw [tick_jump_eq s hIS h hbt hyes]
    · intro hno
      rw [tick_dispatch_eq s hIS h hbt hno]
      show (h s (s.mem (s.PC + 1)) (s.mem (s.PC + 2))).PC +
          (jsUshr6 (s.mem s.PC) + 1) =
        (h s (s.mem (s.PC + 1)) (s.mem (s.PC + 2))).PC +
          (1 + jsUshr6 (s.mem s.PC))
      omega

/-- Witness for C4: ADD carries 2 operand bytes (its two high bits), and a
tick dispatching `LDI R0, 42` at PC = 0 ends with PC = 0 + 3. -/
theorem C4_operand_count_and_advance_witness :
    (2 : Int) = jsUshr6 ADD ∧ (tick progLDI).PC = 3 := by
  obtain ⟨part1, part2⟩ := C4_operand_count_and_advance
  refine ⟨part1 ADD 2 rfl, ?_⟩
  have hadv :=
    (part2 progLDI rfl (fun s a b => handle_LDI s a b) rfl).2 (by decide)
  rw [hadv]; decide

/-- C5: a tick whose opcode byte is not in the dispatch mapping reports
the offending byte, halts the Clock (fatally — the flag is cleared and
stays cleared), and once that tick completes no later clock firing
mutates any state: every subsequent would-be tick leaves the machine
unchanged. -/
theorem C5_invalid_opcode_halts (s : Machine) (hrun : s.running = true)
    (hbt : branchTable (s.mem s.PC) = none) :
    (tick s).running = false ∧
    (tick s).output = Output.invalid (s.mem s.PC) :: s.output ∧
    (∀ n : Nat, clockRun n (tick s) = tick s) := by
  have hno : ¬(s.mem s.PC = CALL ∨ s.mem s.PC = JEQ ∨ s.mem s.PC = JGT ∨
      s.mem s.PC = JLT ∨ s.mem s.PC = JMP ∨ s.mem s.PC = JNE ∨
      s.mem s.PC = RET) := by
    intro hc
    rcases hc with h | h | h | h | h | h | h <;> rw [h] at hbt <;>
      simp [branchTable, ADD, CALL, CMP, HLT, JEQ, JGT, JLT, JMP, JNE, LDI,
        MUL, POP, PRA, PRN, PUSH, RET, ST] at hbt
  have hrunning : (tick s).running = false := by
    simp only [tick, IS, hbt]
    rw [if_neg hno]
    rfl
  have houtput : (tick s).output = Output.invalid (s.mem s.PC) :: s.output := by
    simp only [tick, IS, hbt]
    rw [if_neg hno]
    by_cases h6 : s.reg 6 ≠ 0
    · rw [if_pos h6]
      show Output.invalid (s.mem s.PC) :: (interrupt_general s).output =
        Output.invalid (s.mem s.PC) :: s.output
      rw [interrupt_general_output]
    · rw [if_neg h6]
      rfl
  exact ⟨hrunning, houtput, clockRun_halted hrunning⟩

/-- Witness for C5: opcode byte 0b11111111 is reported, the clock halts,
and three further clock firings leave the machine untouched. -/
theorem C5_invalid_opcode_halts_witness :
    progInvalid.running = true ∧ (tick progInvalid).running = false ∧
    (tick progInvalid).output = Output.invalid 255 :: progInvalid.output ∧
    clockRun 3 (tick progInvalid) = tick progInvalid := by
  obtain ⟨a, b, c⟩ := C5_invalid_opcode_halts progInvalid rfl rfl
  exact ⟨rfl, a, b, c 3⟩

/-- C8 as amended: for every register r other than 7 (the Stack Pointer
register itself), executing PUSH r and then POP r on the same register
restores the machine: register r ends with its pre-PUSH value and SP
returns to its pre-PUSH value.  The fetch hypotheses for the POP are
stated on the post-PUSH machine, so a PUSH that lands on the program
bytes cannot silently break them. -/
theorem C8_push_pop_roundtrip (s : Machine) (r : Int) (hr : r ≠ 7)
    (hIS : s.reg 6 = 0) (hIR : s.mem s.PC = PUSH) (hA : s.mem (s.PC + 1) = r)
    (hIR2 : (tick s).mem ((tick s).PC) = POP)
    (hA2 : (tick s).mem ((tick s).PC + 1) = r) :
    (tick (tick s)).reg r = s.reg r ∧ (tick (tick s)).reg 7 = s.reg 7 := by
  have hbt : branchTable (s.mem s.PC) = some (fun s a _ => handle_PUSH s a) := by
    rw [hIR]; rfl
  have hno : ¬(s.mem s.PC = CALL ∨ s.mem s.PC = JEQ ∨ s.mem s.PC = JGT ∨
      s.mem s.PC = JLT ∨ s.mem s.PC = JMP ∨ s.mem s.PC = JNE ∨
      s.mem s.PC = RET) := by
    rw [hIR]; decide
  obtain ⟨treg, _, tmem, _, _, _⟩ := tick_dispatch_parts s hIS _ hbt hno
  have t7 : (tick s).reg 7 = s.reg 7 - 1 := by
    rw [congrFun treg 7]
    show (handle_PUSH s (s.mem (s.PC + 1))).reg 7 = s.reg 7 - 1
    rw [handle_PUSH_reg]; norm_num
  have t6 : (tick s).reg 6 = 0 := by
    rw [congrFun treg 6]
    show (handle_PUSH s (s.mem (s.PC + 1))).reg 6 = 0
    rw [handle_PUSH_reg, if_neg (by norm_num : ¬((6 : Int) = 7))]
    exact hIS
  have tm : ∀ a : Int, (tick s).mem a =
      if a = s.reg 7 - 1 then s.reg r else s.mem a := by
    intro a
    rw [congrFun tmem a]
    show (handle_PUSH s (s.mem (s.PC + 1))).mem a = _
    rw [hA, handle_PUSH_mem, if_neg hr]
  have hbt2 : branchTable ((tick s).mem ((tick s).PC)) =
      some (fun s a _ => handle_POP s a) := by
    rw [hIR2]; rfl
  have hno2 : ¬((tick s).mem ((tick s).PC) = CALL ∨
      (tick s).mem ((tick s).PC) = JEQ ∨ (tick s).mem ((tick s).PC) = JGT ∨
      (tick s).mem ((tick s).PC) = JLT ∨ (tick s).mem ((tick s).PC) = JMP ∨
      (tick s).mem ((tick s).PC) = JNE ∨ (tick s).mem ((tick s).PC) = RET) := by
    rw [hIR2]; decide
  obtain ⟨ureg, _, _, _, _, _⟩ := tick_dispatch_parts (tick s) t6 _ hbt2 hno2
  constructor
  · rw [congrFun ureg r]
    show (handle_POP (tick s) ((tick s).mem ((tick s).PC + 1))).reg r = s.reg r
    rw [hA2, handle_POP_reg, if_pos rfl, t7, tm, if_pos rfl]
  · rw [congrFun ureg 7]
    show (handle_POP (tick s) ((tick s).mem ((tick s).PC + 1))).reg 7 = s.reg 7
    rw [hA2, handle_POP_reg, if_neg (Ne.symm hr), if_pos rfl, t7]
    omega

/-- Witness for C8: PUSH R0; POP R0 with R0 = 99 and SP = 244 restores
R0 = 99 and SP = 244. -/
theorem C8_push_pop_roundtrip_witness :
    ((0 : Int) ≠ 7) ∧ (tick (tick progPushPop)).reg 0 = 99 ∧
    (tick (tick progPushPop)).reg 7 = 244 := by
  obtain ⟨a, b⟩ := C8_push_pop_roundtrip progPushPop 0 (by decide) rfl rfl rfl
    (by decide) (by decide)
  exact ⟨by decide, a, b⟩

/-- C8 counterexample: the claim as stated quantifies over every register,
but for r = 7 — the Stack Pointer register itself — PUSH R7; POP R7 ends
with R7 = 243 ≠ 244: neither the register value nor SP is restored,
because each push mutates register 7 itself. -/
theorem C8_push_pop_sp_counterexample :
    progPushPop7.mem progPushPop7.PC = PUSH ∧
    progPushPop7.mem (progPushPop7.PC + 1) = 7 ∧
    (tick progPushPop7).mem ((tick progPushPop7).PC) = POP ∧
    (tick progPushPop7).mem ((tick progPushPop7).PC + 1) = 7 ∧
    progPushPop7.reg 7 = 244 ∧
    (tick (tick progPushPop7)).reg 7 = 243 ∧
    (tick (tick progPushPop7)).reg 7 ≠ progPushPop7.reg 7 := by decide

/-- C10 as amended: ADD sets register A to the exact integer sum of the
two register values and MUL to the exact integer product, with no 8-bit
masking, and register B is left unchanged provided B is a different
register from A. -/
theorem C10_add_mul_exact (s : Machine) (regA regB : Int) (hne : regB ≠ regA)
    (hIS : s.reg 6 = 0) (hA : s.mem (s.PC + 1) = regA)
    (hB : s.mem (s.PC + 2) = regB) :
    (s.mem s.PC = ADD →
      (tick s).reg regA = s.reg regA + s.reg regB ∧
      (tick s).reg regB = s.reg regB) ∧
    (s.mem s.PC = MUL →
      (tick s).reg regA = s.reg regA * s.reg regB ∧
      (tick s).reg regB = s.reg regB) := by
  constructor
  · intro hIR
    have hbt : branchTable (s.mem s.PC) = some (fun s a b => handle_ADD s a b) := by
      rw [hIR]; rfl
    have hno : ¬(s.mem s.PC = CALL ∨ s.mem s.PC = JEQ ∨ s.mem s.PC = JGT ∨
        s.mem s.PC = JLT ∨ s.mem s.PC = JMP ∨ s.mem s.PC = JNE ∨
        s.mem s.PC = RET) := by
      rw [hIR]; decide
    obtain ⟨treg, _, _, _, _, _⟩ := tick_dispatch_parts s hIS _ hbt hno
    constructor
    · rw [congrFun treg regA]
      show (handle_ADD s (s.mem (s.PC + 1)) (s.mem (s.PC + 2))).reg regA =
        s.reg regA + s.reg regB
      rw [hA, hB]
      unfold handle_ADD
      rw [setReg_reg, if_pos rfl]
      rfl
    · rw [congrFun treg regB]
      show (handle_ADD s (s.mem (s.PC + 1)) (s.mem (s.PC + 2))).reg regB =
        s.reg regB
      rw [hA, hB]
      unfold handle_ADD
      rw [setReg_reg, if_neg hne]
  · intro hIR
    have hbt : branchTable (s.mem s.PC) = some (fun s a b => handle_MUL s a b) := by
      rw [hIR]; rfl
    have hno : ¬(s.mem s.PC = CALL ∨ s.mem s.PC = JEQ ∨ s.mem s.PC = JGT ∨
        s.mem s.PC = JLT ∨ s.mem s.PC = JMP ∨ s.mem s.PC = JNE ∨
        s.mem s.PC = RET) := by
      rw [hIR]; decide
    obtain ⟨treg, _, _, _, _, _⟩ := tick_dispatch_parts s hIS _ hbt hno
    constructor
    · rw [congrFun treg regA]
      show (handle_MUL s (s.mem (s.PC + 1)) (s.mem (s.PC + 2))).reg regA =
        s.reg regA * s.reg regB
      rw [hA, hB]
      unfold handle_MUL
      rw [setReg_reg, if_pos rfl]
      rfl
    · rw [congrFun treg regB]
      show (handle_MUL s (s.mem (s.PC + 1)) (s.mem (s.PC + 2))).reg regB =
        s.reg regB
      rw [hA, hB]
      unfold handle_MUL
      rw [setReg_reg, if_neg hne]

/-- Witness for C10: ADD on R0 = 200, R1 = 200 leaves R0 = 400 (beyond 8
bits, unmasked) with R1 unchanged, and MUL on R0 = 3, R1 = 4 leaves
R0 = 12 with R1 unchanged. -/
theorem C10_add_mul_exact_witness :
    ((1 : Int) ≠ 0) ∧
    (tick progADD).reg 0 = 200 + 200 ∧ (tick progADD).reg 1 = 200 ∧
    (tick progMUL).reg 0 = 3 * 4 ∧ (tick progMUL).reg 1 = 4 := by
  have h1 := (C10_add_mul_exact progADD 0 1 (by decide) rfl rfl rfl).1 rfl
  have h2 := (C10_add_mul_exact progMUL 0 1 (by decide) rfl rfl rfl).2 rfl
  exact ⟨by decide, h1.1, h1.2, h2.1, h2.2⟩

/-- C10 counterexample: with both operand bytes naming register 0 (A = B
= 0) and R0 = 3, ADD leaves R0 = 6 — register A still receives the exact
sum of the two (identical) register values, but register B is not left
unchanged, refuting the unqualified claim. -/
theorem C10_add_same_register_counterexample :
    progADDSelf.mem progADDSelf.PC = ADD ∧
    progADDSelf.mem (progADDSelf.PC + 1) = 0 ∧
    progADDSelf.mem (progADDSelf.PC + 2) = 0 ∧
    progADDSelf.reg 0 = 3 ∧
    (tick progADDSelf).reg 0 = 6 ∧
    (tick progADDSelf).reg 0 ≠ progADDSelf.reg 0 := by decide

end LS8
